import Mathlib

/-!
Verification of the udata search query compiler / result mapper spec.

The search subsystem's implementation module is not part of the source
tree under verification (only its test suite is), so the definitions
below are modelled from the specification (spec.md §§3-4, 6-8), guided
by the expected documents recorded in the test suite
(src/udata/tests/test_search.py).
-/

/-- Modelled from the spec: a JSON-like value, the shape of compiled
query documents and response fragments (spec §6). Numbers are rationals
(covering the integral sizes and the decay factor 0.5). -/
inductive JVal where
  | s : String → JVal
  | n : Rat → JVal
  | b : Bool → JVal
  | arr : List JVal → JVal
  | obj : List (String × JVal) → JVal

/-- Modelled from the spec: the default page size applied when the
query omits one (spec §3: "page size ≥ 1 defaults applied when absent";
the test suite names it DEFAULT_PAGE_SIZE). -/
def DEFAULT_PAGE_SIZE : Nat := 20

/- ### Tokenization (spec §4.1: "tokenize `q` on whitespace") -/

/-- Split a character list into maximal runs of non-whitespace
characters; `cur` accumulates the current run in reverse. -/
def splitWs : List Char → List Char → List (List Char)
  | [], cur => match cur with
    | [] => []
    | _ => [cur.reverse]
  | c :: cs, cur =>
    if c.isWhitespace then
      match cur with
      | [] => splitWs cs []
      | _ => cur.reverse :: splitWs cs []
    else splitWs cs (c :: cur)

/-- Modelled from the spec: whitespace tokenization of the free-text
query string. -/
def tokenize (q : String) : List (List Char) := splitWs q.toList []

/-- A token is negated when it carries the leading `-` marker. -/
def isNeg (t : List Char) : Bool :=
  match t with
  | '-' :: _ => true
  | _ => false

/-- Strip the leading `-` marker from a negated token. -/
def stripNeg (t : List Char) : List Char :=
  match t with
  | '-' :: r => r
  | t => t

/-- Modelled from the spec: the positive group — tokens without the
leading `-` marker. -/
def posTokens (q : String) : List (List Char) :=
  (tokenize q).filter (fun t => !isNeg t)

/-- Modelled from the spec: the negative group — tokens with the
leading `-` marker, marker stripped. -/
def negTokens (q : String) : List (List Char) :=
  ((tokenize q).filter isNeg).map stripNeg

/-- Rejoin a token group into a single space-separated phrase. -/
def joinSpace (ts : List (List Char)) : String :=
  String.mk (List.intercalate [' '] ts)

/- ### Data model (spec §3) -/

/-- Modelled from the spec: a facet, one of the three variants —
terms, model-terms, range. The range variant carries its ordered list
of labeled sub-ranges (label, optional lower bound, optional upper
bound), used only for labeling. -/
inductive Facet where
  | termsF (field : String)
  | modelTermsF (field : String) (modelName : String)
  | rangeF (field : String) (ranges : List (String × Option Rat × Option Rat))

/-- A decay booster kind (spec §4.1: gaussian, exponential, linear). -/
inductive DecayKind where
  | gauss
  | expD
  | linear

/-- The engine name of a decay kind. -/
def DecayKind.name : DecayKind → String
  | .gauss => "gauss"
  | .expD => "exp"
  | .linear => "linear"

/-- Modelled from the spec: a booster numeric parameter — either a
literal or a zero-argument supplier (spec §3, §4.1). Suppliers carry an
identifier so that compile-time invocations can be traced. -/
inductive PVal where
  | lit : Rat → PVal
  | supplier : Nat → (Unit → Rat) → PVal

/-- Resolve a parameter at compile time, returning its value and the
trace of supplier invocations performed (one entry per invocation). -/
def PVal.resolveTr : PVal → Rat × List Nat
  | .lit v => (v, [])
  | .supplier i f => (f (), [i])

/-- Resolve an optional parameter, with its invocation trace. -/
def resolveOpt : Option PVal → Option Rat × List Nat
  | none => (none, [])
  | some pv => (some (pv.resolveTr).1, (pv.resolveTr).2)

/-- Modelled from the spec: a booster — boolean, script, or decay
(spec §4.1 scoring wrap). The decay form carries origin, and optional
scale, offset, decay parameters. -/
inductive Booster where
  | boolB (field : String) (factor : PVal)
  | funcB (script : String)
  | decayB (kind : DecayKind) (field : String) (origin : PVal)
      (scale offset decay : Option PVal)

/-- Modelled from the spec: an adapter — weighted field list, facet
map, sort map, analyzer, match mode, fuzzy flag, booster list
(spec §3). -/
structure Adapter where
  fields : List String
  analyzer : String
  matchType : String
  fuzzy : Bool
  facets : List (String × Facet)
  sorts : List (String × String)
  boosters : List Booster

/-- A facet filter value supplied in the parameters: scalar or
sequence (spec §3). -/
inductive FacetValue where
  | single : String → FacetValue
  | multi : List String → FacetValue

/-- The facet-selection mode (spec §4.1: absent → none, true/"all" →
every declared facet, a list → only named facets). -/
inductive FacetsMode where
  | noneF
  | allF
  | onlyF : List String → FacetsMode

/-- Modelled from the spec: the request parameter set of a query
(spec §4.1): free text, per-facet filter values, facet-selection mode,
sort tokens, page, page size. -/
structure Params where
  q : Option String
  selections : List (String × FacetValue)
  facetsMode : FacetsMode
  sort : List String
  page : Option Nat
  pageSize : Option Nat

/-- The empty parameter set. -/
def Params.empty : Params :=
  ⟨none, [], .noneF, [], none, none⟩

/- ### Match clause construction (spec §4.1) -/

/-- Modelled from the spec: one multi-field match clause over the
adapter's weighted field list, analyzer and match mode; a fuzzy adapter
additionally carries fuzziness "AUTO" with prefix length 2. -/
def matchClause (a : Adapter) (phrase : String) : JVal :=
  .obj [("multi_match", .obj (
    [("query", .s phrase),
     ("analyzer", .s a.analyzer),
     ("type", .s a.matchType),
     ("fields", .arr (a.fields.map JVal.s))]
    ++ (if a.fuzzy then
          [("fuzziness", JVal.s "AUTO"), ("prefix_length", JVal.n 2)]
        else [])))]

/-- Modelled from the spec: the match clauses of the required list —
one clause for the positive group when it is non-empty. -/
def mustMatches (a : Adapter) : Option String → List JVal
  | none => []
  | some qs =>
    match posTokens qs with
    | [] => []
    | ts => [matchClause a (joinSpace ts)]

/-- Modelled from the spec: the match clauses of the excluded list —
one clause for the negative group when it is non-empty. -/
def mustNotMatches (a : Adapter) : Option String → List JVal
  | none => []
  | some qs =>
    match negTokens qs with
    | [] => []
    | ts => [matchClause a (joinSpace ts)]

/- ### Facet filter fragments (spec §4.2, §6) -/

/-- An equality term fragment on a field (spec §6). -/
def termFilter (field : String) (v : String) : JVal :=
  .obj [("term", .obj [(field, .s v)])]

/-- Split a character list on a separator character, keeping empty
segments; `cur` accumulates the current segment in reverse. -/
def splitOnChar (sep : Char) : List Char → List Char → List (List Char)
  | [], cur => [cur.reverse]
  | c :: cs, cur =>
    if c = sep then cur.reverse :: splitOnChar sep cs []
    else splitOnChar sep cs (c :: cur)

/-- Parse a non-empty run of decimal digits into a number. -/
def parseNum (cs : List Char) : Option Nat :=
  match cs with
  | [] => none
  | _ =>
    if cs.all Char.isDigit then
      some (cs.foldl (fun n c => n * 10 + (c.toNat - 48)) 0)
    else none

/-- Modelled from the spec: the range facet's filter fragment, built
purely by parsing the literal request value as "low-high" into
inclusive bounds; malformed values are a contract violation (none). -/
def rangeToFilter (field : String) (value : String) : Option JVal :=
  match splitOnChar '-' value.toList [] with
  | [lo, hi] =>
    match parseNum lo, parseNum hi with
    | some l, some h =>
      some (.obj [("range", .obj [(field,
        .obj [("gte", .n l), ("lte", .n h)])])])
    | _, _ => none
  | _ => none

/-- Modelled from the spec: translate one supplied facet value into
filter fragments — a scalar yields one fragment, a sequence one
fragment per value (spec §4.1); term facets use equality terms, the
range facet parses the literal value (its declared label ranges are
never consulted). -/
def Facet.toFilter : Facet → FacetValue → Option (List JVal)
  | .termsF field, .single v => some [termFilter field v]
  | .termsF field, .multi vs => some (vs.map (termFilter field))
  | .modelTermsF field _, .single v => some [termFilter field v]
  | .modelTermsF field _, .multi vs => some (vs.map (termFilter field))
  | .rangeF field _, .single v => (rangeToFilter field v).map ([·])
  | .rangeF field _, .multi vs => vs.mapM (rangeToFilter field)

/-- Modelled from the spec: collect the filter fragments of every
facet name present among the parameters; unknown facet names are
ignored (spec §7). -/
def facetFilters (a : Adapter) : List (String × FacetValue) → Option (List JVal)
  | [] => some []
  | (name, v) :: rest =>
    match a.facets.lookup name with
    | none => facetFilters a rest
    | some f => do
      let frags ← f.toFilter v
      let others ← facetFilters a rest
      pure (frags ++ others)

/- ### Query assembly (spec §4.1) -/

/-- The bool query body: must / must_not keys present only when the
corresponding list is non-empty. -/
def boolBody (must mustNot : List JVal) : List (String × JVal) :=
  (match must with
   | [] => []
   | _ => [("must", JVal.arr must)])
  ++ (match mustNot with
      | [] => []
      | _ => [("must_not", JVal.arr mustNot)])

/-- Modelled from the spec: the query part before scoring wrap —
match-all when no clause at all, otherwise a bool query combining the
match clauses and the facet filter fragments in the required list and
the negative clause in the excluded list. -/
def baseQuery (a : Adapter) (p : Params) : Option JVal := do
  let filters ← facetFilters a p.selections
  let must := mustMatches a p.q ++ filters
  let mustNot := mustNotMatches a p.q
  match must, mustNot with
  | [], [] => pure (.obj [("match_all", .obj [])])
  | _, _ => pure (.obj [("bool", .obj (boolBody must mustNot))])

/- ### Boosters (spec §4.1 scoring wrap) -/

/-- The engine fragment of a decay function: origin and scale always
present, offset and decay omitted when not supplied. -/
def decayFrag (kind : DecayKind) (field : String) (origin scaleV : Rat)
    (offset decay : Option Rat) : JVal :=
  .obj [(kind.name, .obj [(field, .obj (
    [("origin", .n origin), ("scale", .n scaleV)]
    ++ (match offset with
        | none => []
        | some v => [("offset", JVal.n v)])
    ++ (match decay with
        | none => []
        | some v => [("decay", JVal.n v)])))])]

/-- Modelled from the spec: compile one booster into its scoring
function fragment, evaluating every supplier parameter exactly once at
compile time; the second component records the supplier invocations in
order. A decay booster without an explicit scale reuses its origin
value as the scale. -/
def Booster.compileTr : Booster → JVal × List Nat
  | .boolB field factor =>
    let r := factor.resolveTr
    (.obj [("filter", .obj [("term", .obj [(field, .b true)])]),
           ("boost_factor", .n r.1)], r.2)
  | .funcB script => (.obj [("script_score", .obj [("script", .s script)])], [])
  | .decayB kind field origin scale offset decay =>
    let ro := origin.resolveTr
    let rs := match scale with
      | none => (ro.1, ([] : List Nat))
      | some pv => pv.resolveTr
    let roff := resolveOpt offset
    let rd := resolveOpt decay
    (decayFrag kind field ro.1 rs.1 roff.1 rd.1,
     ro.2 ++ rs.2 ++ roff.2 ++ rd.2)

/-- Modelled from the spec: the full query part — when the adapter
declares boosters, the assembled query is wrapped in a function-score
envelope whose functions array holds each booster's fragment in
declaration order. -/
def queryPart (a : Adapter) (p : Params) : Option JVal := do
  let base ← baseQuery a p
  match a.boosters with
  | [] => pure base
  | bs => pure (.obj [("function_score", .obj
      [("query", base),
       ("functions", .arr (bs.map (fun b => (b.compileTr).1)))])])

/- ### Aggregations, sort, pagination (spec §4.1) -/

/-- Modelled from the spec: a facet's aggregation-request fragment —
"terms" with a bucket-count cap of 20 for the term facets, a "stats"
summary for the range facet (spec §4.2). -/
def Facet.toQuery : Facet → JVal
  | .termsF field =>
    .obj [("terms", .obj [("field", .s field), ("size", .n 20)])]
  | .modelTermsF field _ =>
    .obj [("terms", .obj [("field", .s field), ("size", .n 20)])]
  | .rangeF field _ =>
    .obj [("stats", .obj [("field", .s field)])]

/-- Modelled from the spec: the facets selected by the facet-selection
mode (spec §4.1). -/
def selectedFacets (a : Adapter) : FacetsMode → List (String × Facet)
  | .noneF => []
  | .allF => a.facets
  | .onlyF names => a.facets.filter (fun kv => names.contains kv.1)

/-- Modelled from the spec: one aggregation per selected facet, keyed
by the deterministic prefix applied to the facet name. -/
def aggsPart (a : Adapter) (p : Params) : List (String × JVal) :=
  (selectedFacets a p.facetsMode).map
    (fun kv => ("_filter_" ++ kv.1, kv.2.toQuery))

/-- Modelled from the spec: sort clauses — strip an optional leading
`-` (descending, else ascending), map through the adapter's sort map. -/
def sortPart (a : Adapter) (sort : List String) : List JVal :=
  sort.filterMap (fun s =>
    let cs := s.toList
    let dir := if isNeg cs then "desc" else "asc"
    let key := String.mk (stripNeg cs)
    (a.sorts.lookup key).map (fun field => JVal.obj [(field, .s dir)]))

/-- Modelled from the spec: the full compiled document — query part,
aggregations and sort keys when non-empty, pagination window
offset = (page - 1) * page_size and limit = page_size with defaults
applied (spec §4.1, §6). -/
def compileBody (a : Adapter) (p : Params) : Option JVal := do
  let qp ← queryPart a p
  let aggs := aggsPart a p
  let sorts := sortPart a p.sort
  pure (.obj (
    [("query", qp)]
    ++ (match aggs with
        | [] => []
        | _ => [("aggs", JVal.obj aggs)])
    ++ (match sorts with
        | [] => []
        | _ => [("sort", JVal.arr sorts)])
    ++ [("from", .n (((p.page.getD 1) - 1) * (p.pageSize.getD DEFAULT_PAGE_SIZE) : Nat)),
        ("size", .n (p.pageSize.getD DEFAULT_PAGE_SIZE : Nat))]))

/- ### Range facet extraction (spec §4.2, §7) -/

/-- Modelled from the spec: a numeric value reported by a statistical
aggregation — either a finite number or one of the non-finite
sentinels (the infinities and not-a-number). -/
inductive StatVal where
  | num : Rat → StatVal
  | infinity
  | negInfinity
  | nan

/-- The finite value of a reported statistic, absent on a sentinel. -/
def StatVal.toFinite : StatVal → Option Rat
  | .num v => some v
  | _ => none

/-- The min/max part of a stats aggregation section of a response. -/
structure StatsAgg where
  min : StatVal
  max : StatVal

/-- The typed summary extracted by the range facet. -/
structure RangeSummary where
  min : Option Rat
  max : Option Rat
  visible : Bool

/-- Modelled from the spec: the range facet's extraction — when the
response reports a non-finite sentinel for min or max both values
normalize to absent and visible is false, otherwise the bounds pass
through unchanged with visible true; an absent aggregation section
yields the neutral extraction (spec §4.2, §7). -/
def rangeFromResponse : Option StatsAgg → RangeSummary
  | none => ⟨none, none, false⟩
  | some st =>
    match st.min.toFinite, st.max.toFinite with
    | some a, some b => ⟨some a, some b, true⟩
    | _, _ => ⟨none, none, false⟩

/- ### Result mapper (spec §4.3) -/

/-- The hits section of a raw response: ordered hit identifiers, the
reported hit count, the reported maximum relevance score. -/
structure HitsSection where
  ids : List String
  total : Nat
  max_score : Rat

/-- A raw search-engine response; every expected section may be
absent. -/
structure RawResponse where
  hits : Option HitsSection

/-- Modelled from the spec: a search result — the originating query's
parameters plus the raw response (spec §4.3). -/
structure SearchResult where
  query : Params
  response : RawResponse

/-- Modelled from the spec: the reported hit count, 0 when the section
is absent. -/
def SearchResult.total (r : SearchResult) : Nat :=
  match r.response.hits with
  | none => 0
  | some h => h.total

/-- Modelled from the spec: the reported maximum relevance score, 0
when absent. -/
def SearchResult.max_score (r : SearchResult) : Rat :=
  match r.response.hits with
  | none => 0
  | some h => h.max_score

/-- Modelled from the spec: the ordered hit identifiers, empty when
absent. -/
def SearchResult.get_ids (r : SearchResult) : List String :=
  match r.response.hits with
  | none => []
  | some h => h.ids

/-- Modelled from the spec: the page size, from the originating query
with the process-wide default. -/
def SearchResult.page_size (r : SearchResult) : Nat :=
  r.query.pageSize.getD DEFAULT_PAGE_SIZE

/-- Modelled from the spec: the page count — ceiling of
total / page_size, 0 when total is 0. -/
def SearchResult.pages (r : SearchResult) : Nat :=
  (r.total + r.page_size - 1) / r.page_size

/-- Modelled from the spec: the page, taken from the originating query
with default 1, except that it is forced to 1 whenever the computed
page count is 0. -/
def SearchResult.page (r : SearchResult) : Nat :=
  if r.pages = 0 then 1 else r.query.page.getD 1

/- ### URL state codec (spec §4.4, §6) -/

/-- The values a facet filter contributes to the URL. -/
def FacetValue.toList : FacetValue → List String
  | .single v => [v]
  | .multi vs => vs

/-- Modelled from the spec: serialization of a query's parameters into
URL query parameters, multi-valued parameters preserved as repeated
keys (spec §4.4); the serialized parameters are the free text, the
facet filter values, the sort tokens and the page (spec §6 URL
surface) — the facet-selection mode is not serialized. -/
def serializeParams (p : Params) : List (String × List String) :=
  (match p.q with
   | none => []
   | some qs => [("q", [qs])])
  ++ p.selections.map (fun kv => (kv.1, kv.2.toList))
  ++ (match p.sort with
      | [] => []
      | ss => [("sort", ss)])
  ++ (match p.page with
      | none => []
      | some n => [("page", [toString n])])

/-- Modelled from the spec: apply one override to serialized
parameters — an absent value removes the parameter; with the replace
flag the supplied value replaces the named parameter entirely;
otherwise it is appended to the existing multi-valued parameter, or
added when the key is new (spec §4.4). -/
def applyOverride (replace : Bool) (base : List (String × List String))
    (ov : String × Option String) : List (String × List String) :=
  match ov with
  | (k, none) => base.filter (fun kv => kv.1 ≠ k)
  | (k, some v) =>
    if replace then base.filter (fun kv => kv.1 ≠ k) ++ [(k, [v])]
    else if (base.lookup k).isSome then
      base.map (fun kv => if kv.1 = k then (kv.1, kv.2 ++ [v]) else kv)
    else base ++ [(k, [v])]

/-- Modelled from the spec: re-serialization of a query with a set of
overrides under one merge policy (spec §4.4). -/
def toUrlParams (p : Params) (ovs : List (String × Option String))
    (replace : Bool) : List (String × List String) :=
  ovs.foldl (applyOverride replace) (serializeParams p)

/- ### Fixtures (the adapter and queries of the spec's scenarios) -/

/-- The test adapter: weighted fields title^2 and description, the
i18n analyzer, cross_fields matching, no fuzziness, the tag/other/range
facets, the title/description sort map, no boosters. -/
def adFake : Adapter :=
  ⟨["title^2", "description"], "i18n_analyzer", "cross_fields", false,
   [("tag", .termsF "tags"), ("other", .termsF "other"),
    ("range", .rangeF "a_num_field"
      [("Never reused", none, some 1), ("Little reused", some 1, some 5),
       ("Quite reused", some 5, some 10), ("Heavily reused", some 10, none)])],
   [("title", "title.raw"), ("description", "description.raw")], []⟩

/-- The query of the URL round-trip scenario:
q = "test", tag = [tag1, tag2], page = 2. -/
def pC5 : Params := { Params.empty with
  q := some "test",
  selections := [("tag", .multi ["tag1", "tag2"])],
  page := some 2 }

/-- A result over the empty raw response, originating query requested
page 2 with page size 3. -/
def rEmpty : SearchResult :=
  ⟨{ Params.empty with page := some 2, pageSize := some 3 }, ⟨none⟩⟩

/-- A result over a 3-hit page with total 11, page size 3, requested
page 2. -/
def rFull : SearchResult :=
  ⟨{ Params.empty with page := some 2, pageSize := some 3 },
   ⟨some ⟨["h1", "h2", "h3"], 11, 5⟩⟩⟩

/- ### Claims -/

/-- C1: for a query string of whitespace-separated tokens (no facet
filters supplied, no boosters declared), the compiled query places one
multi-field match clause for the positive tokens in the bool must list
and one for the negated tokens (marker stripped) in the bool must_not
list; a q of only negated tokens yields a bool query with a must_not
list and no must list at all. -/
theorem c1_query_negation_partition (a : Adapter) (p : Params) (qs : String)
    (hq : p.q = some qs) (hsel : p.selections = []) (hb : a.boosters = []) :
    (posTokens qs ≠ [] → negTokens qs ≠ [] →
      queryPart a p = some (JVal.obj [("bool", JVal.obj
        [("must", JVal.arr [matchClause a (joinSpace (posTokens qs))]),
         ("must_not", JVal.arr [matchClause a (joinSpace (negTokens qs))])])]))
    ∧ (posTokens qs = [] → negTokens qs ≠ [] →
      queryPart a p = some (JVal.obj [("bool", JVal.obj
        [("must_not", JVal.arr [matchClause a (joinSpace (negTokens qs))])])])) := by
  constructor
  · intro hpos hneg
    rcases hp : posTokens qs with _ | ⟨t, ts⟩
    · exact absurd hp hpos
    · rcases hn : negTokens qs with _ | ⟨u, us⟩
      · exact absurd hn hneg
      · simp [queryPart, baseQuery, hsel, hq, hb, facetFilters,
              mustMatches, mustNotMatches, hp, hn, boolBody]
  · intro hpos hneg
    rcases hn : negTokens qs with _ | ⟨u, us⟩
    · exact absurd hn hneg
    · simp [queryPart, baseQuery, hsel, hq, hb, facetFilters,
            mustMatches, mustNotMatches, hpos, hn, boolBody]

/-- Witness for C1 at q = "test -negated" and q = "-test -foo". -/
theorem c1_witness :
    (posTokens "test -negated" ≠ [] ∧ negTokens "test -negated" ≠ [] ∧
      queryPart adFake { Params.empty with q := some "test -negated" } =
        some (JVal.obj [("bool", JVal.obj
          [("must", JVal.arr [matchClause adFake "test"]),
           ("must_not", JVal.arr [matchClause adFake "negated"])])]))
    ∧ (posTokens "-test -foo" = [] ∧ negTokens "-test -foo" ≠ [] ∧
      queryPart adFake { Params.empty with q := some "-test -foo" } =
        some (JVal.obj [("bool", JVal.obj
          [("must_not", JVal.arr [matchClause adFake "test foo"])])])) :=
  ⟨⟨by decide, by decide,
    (c1_query_negation_partition adFake
      { Params.empty with q := some "test -negated" } "test -negated"
      rfl rfl rfl).1 (by decide) (by decide)⟩,
   ⟨by decide, by decide,
    (c1_query_negation_partition adFake
      { Params.empty with q := some "-test -foo" } "-test -foo"
      rfl rfl rfl).2 (by decide) (by decide)⟩⟩

/-- C2: a range-facet extraction from a stats aggregation reporting a
non-finite sentinel (Infinity, -Infinity or NaN) for min or max has min
absent, max absent and visible false; finite min and max pass through
unchanged with visible true. -/
theorem c2_range_sentinel_normalization (st : StatsAgg) :
    ((st.min.toFinite = none ∨ st.max.toFinite = none) →
      rangeFromResponse (some st) = ⟨none, none, false⟩)
    ∧ (∀ a b : Rat, st.min = .num a → st.max = .num b →
      rangeFromResponse (some st) = ⟨some a, some b, true⟩) := by
  constructor
  · intro h
    rcases st with ⟨mn, mx⟩
    rcases h with h | h <;>
      cases mn <;> cases mx <;>
        simp_all [StatVal.toFinite, rangeFromResponse]
  · intro a b ha hb
    rcases st with ⟨mn, mx⟩
    simp only at ha hb
    subst ha hb
    rfl

/-- Witness for C2 at the stats response min = Infinity,
max = -Infinity, and at the finite stats response min = 3, max = 42. -/
theorem c2_witness :
    rangeFromResponse (some ⟨.infinity, .negInfinity⟩) = ⟨none, none, false⟩
    ∧ rangeFromResponse (some ⟨.num 3, .num 42⟩) = ⟨some 3, some 42, true⟩ :=
  ⟨(c2_range_sentinel_normalization ⟨.infinity, .negInfinity⟩).1 (Or.inl rfl),
   (c2_range_sentinel_normalization ⟨.num 3, .num 42⟩).2 3 42 rfl rfl⟩

/-- C3: a result over an empty raw response (no hits section) has
total 0, max_score 0, pages 0 and page 1 regardless of the requested
page; in general page is forced to 1 whenever the computed page count
is 0, and otherwise the requested page is echoed back. -/
theorem c3_empty_response_pagination (p : Params) (r : SearchResult) :
    (SearchResult.mk p ⟨none⟩).total = 0
    ∧ (SearchResult.mk p ⟨none⟩).max_score = 0
    ∧ (SearchResult.mk p ⟨none⟩).pages = 0
    ∧ (SearchResult.mk p ⟨none⟩).page = 1
    ∧ (r.pages = 0 → r.page = 1)
    ∧ (r.pages ≠ 0 → r.page = r.query.page.getD 1) := by
  have hp : (SearchResult.mk p ⟨none⟩).pages = 0 := by
    simp only [SearchResult.pages, SearchResult.total, SearchResult.page_size]
    rcases hx : p.pageSize.getD DEFAULT_PAGE_SIZE with _ | n
    · rfl
    · exact Nat.div_eq_of_lt (by omega)
  refine ⟨rfl, rfl, hp, ?_, ?_, ?_⟩
  · simp [SearchResult.page, hp]
  · intro h
    simp [SearchResult.page, h]
  · intro h
    simp [SearchResult.page, h]

/-- Witness for C3 at the empty response with requested page 2 and at
a 3-hit page with total 11, page size 3, requested page 2. -/
theorem c3_witness :
    rEmpty.total = 0 ∧ rEmpty.max_score = 0 ∧ rEmpty.pages = 0
    ∧ rEmpty.page = 1 ∧ rFull.pages = 4 ∧ rFull.page = 2 :=
  ⟨(c3_empty_response_pagination rEmpty.query rEmpty).1,
   (c3_empty_response_pagination rEmpty.query rEmpty).2.1,
   (c3_empty_response_pagination rEmpty.query rEmpty).2.2.1,
   (c3_empty_response_pagination rEmpty.query rEmpty).2.2.2.1,
   by decide,
   (c3_empty_response_pagination rFull.query rFull).2.2.2.2.2 (by decide)⟩

/-- C4: a booster whose numeric parameters are zero-argument suppliers
is compiled by invoking each supplier exactly once at compile time
(the invocation trace is exactly one entry per supplier parameter, in
order) and substituting the returned value, so the compiled fragment is
identical to the fragment compiled from the corresponding literal
values. -/
theorem c4_suppliers_once (kind : DecayKind) (field bfield : String)
    (i0 i1 i2 i3 j : Nat) (f0 f1 f2 f3 g : Unit → Rat) :
    Booster.compileTr (.decayB kind field (.supplier i0 f0)
        (some (.supplier i1 f1)) (some (.supplier i2 f2))
        (some (.supplier i3 f3)))
      = ((Booster.compileTr (.decayB kind field (.lit (f0 ()))
          (some (.lit (f1 ()))) (some (.lit (f2 ())))
          (some (.lit (f3 ()))))).1, [i0, i1, i2, i3])
    ∧ Booster.compileTr (.boolB bfield (.supplier j g))
      = ((Booster.compileTr (.boolB bfield (.lit (g ())))).1, [j]) :=
  ⟨rfl, rfl⟩

/-- C5: re-serializing the query {q = "test", tag = [tag1, tag2],
page = 2} with override tag = "tag3" without the replace flag yields
tag holding [tag1, tag2, tag3]; with replace it yields tag = tag3
alone; supplying tag = none removes the tag parameter entirely. -/
theorem c5_url_override :
    (toUrlParams pC5 [("tag", some "tag3"), ("other", some "value")]
        false).lookup "tag" = some ["tag1", "tag2", "tag3"]
    ∧ (toUrlParams pC5 [("tag", some "tag3"), ("other", some "value")]
        true).lookup "tag" = some ["tag3"]
    ∧ toUrlParams pC5 [("tag", none), ("other", some "value")] true
      = [("q", ["test"]), ("page", ["2"]), ("other", ["value"])] :=
  ⟨rfl, rfl, rfl⟩

/-- C6: for every adapter without boosters, compiling the empty
parameter set (no q, no facet filters, no facet selection, no sort)
produces exactly the match-all query, with no aggregations and no sort
keys in the compiled document. -/
theorem c6_empty_search (a : Adapter) (p : Params)
    (hq : p.q = none) (hsel : p.selections = []) (hm : p.facetsMode = .noneF)
    (hsort : p.sort = []) (hb : a.boosters = []) :
    compileBody a p = some (JVal.obj
      [("query", JVal.obj [("match_all", JVal.obj [])]),
       ("from", JVal.n (((p.page.getD 1) - 1) *
         (p.pageSize.getD DEFAULT_PAGE_SIZE) : Nat)),
       ("size", JVal.n ((p.pageSize.getD DEFAULT_PAGE_SIZE : Nat)))]) := by
  simp [compileBody, queryPart, baseQuery, hq, hsel, hm, hsort, hb,
        facetFilters, mustMatches, mustNotMatches, aggsPart,
        selectedFacets, sortPart]

/-- Witness for C6 at the test adapter and the empty parameter set. -/
theorem c6_witness :
    compileBody adFake Params.empty = some (JVal.obj
      [("query", JVal.obj [("match_all", JVal.obj [])]),
       ("from", JVal.n 0), ("size", JVal.n 20)]) :=
  c6_empty_search adFake Params.empty rfl rfl rfl rfl rfl

/-- C7: for every range facet and request value of the form low-high
with numeric bounds, the filter fragment is the inclusive range on the
facet's field parsed purely from the literal value, for every declared
label-range list — the declared label ranges never influence the
filter. -/
theorem c7_range_filter_ignores_labels (field value : String)
    (ranges : List (String × Option Rat × Option Rat))
    (lo hi : List Char) (l h : Nat)
    (hsplit : splitOnChar '-' value.toList [] = [lo, hi])
    (hlo : parseNum lo = some l) (hhi : parseNum hi = some h) :
    Facet.toFilter (.rangeF field ranges) (.single value) =
      some [JVal.obj [("range", JVal.obj [(field,
        JVal.obj [("gte", JVal.n l), ("lte", JVal.n h)])])]] := by
  simp only [String.toList] at hsplit
  simp [Facet.toFilter, rangeToFilter, hsplit, hlo, hhi]

/-- Witness for C7 at the value "3-8" and the declared label ranges of
the test range facet. -/
theorem c7_witness :
    Facet.toFilter
      (.rangeF "some_field"
        [("Never reused", none, some 1), ("Little reused", some 1, some 5),
         ("Quite reused", some 5, some 10), ("Heavily reused", some 10, none)])
      (.single "3-8") =
      some [JVal.obj [("range", JVal.obj [("some_field",
        JVal.obj [("gte", JVal.n 3), ("lte", JVal.n 8)])])]] :=
  c7_range_filter_ignores_labels "some_field" "3-8"
    [("Never reused", none, some 1), ("Little reused", some 1, some 5),
     ("Quite reused", some 5, some 10), ("Heavily reused", some 10, none)]
    ['3'] ['8'] 3 8 (by decide) (by decide) (by decide)

/-- C8: a facet parameter supplied as a sequence of n values
contributes one independent equality term fragment per value to the
compiled query's required (must) list — all n fragments present and
AND-ed — while a scalar value contributes exactly one fragment. -/
theorem c8_multi_value_filters (a : Adapter) (p : Params)
    (name field qs v : String) (vs : List String)
    (hf : a.facets.lookup name = some (.termsF field))
    (hq : p.q = some qs)
    (hpos : posTokens qs ≠ []) (hneg : negTokens qs = [])
    (hsel : p.selections = [(name, .multi vs)]) :
    baseQuery a p = some (JVal.obj [("bool", JVal.obj
      [("must", JVal.arr (matchClause a (joinSpace (posTokens qs)) ::
        vs.map (termFilter field)))])])
    ∧ Facet.toFilter (.termsF field) (.single v) =
      some [termFilter field v] := by
  constructor
  · rcases hp : posTokens qs with _ | ⟨t, ts⟩
    · exact absurd hp hpos
    · simp [baseQuery, hsel, facetFilters, hf, Facet.toFilter,
            mustMatches, mustNotMatches, hq, hneg, hp, boolBody]
  · rfl

/-- Witness for C8 at the test adapter, q = "test" and
tag = [value-1, value-2]. -/
theorem c8_witness :
    baseQuery adFake { Params.empty with
        q := some "test",
        selections := [("tag", .multi ["value-1", "value-2"])] } =
      some (JVal.obj [("bool", JVal.obj
        [("must", JVal.arr [matchClause adFake "test",
          termFilter "tags" "value-1", termFilter "tags" "value-2"])])])
    ∧ Facet.toFilter (.termsF "tags") (.single "value") =
      some [termFilter "tags" "value"] :=
  c8_multi_value_filters adFake
    { Params.empty with
        q := some "test",
        selections := [("tag", .multi ["value-1", "value-2"])] }
    "tag" "tags" "test" "value" ["value-1", "value-2"]
    rfl rfl (by decide) (by decide) rfl

/-- C9: a decay booster (gaussian, exponential or linear) constructed
without an explicit scale parameter compiles to a fragment whose scale
equals its origin value. -/
theorem c9_default_scale (kind : DecayKind) (field : String) (origin : PVal) :
    Booster.compileTr (.decayB kind field origin none none none) =
      (decayFrag kind field (origin.resolveTr).1 (origin.resolveTr).1
        none none, (origin.resolveTr).2) := by
  cases origin <;> rfl

/-- C10: serializing a query to a URL never emits the facet-selection
parameter — two queries identical except for their facets argument
serialize to the same parameters, and the URL round-trip query carries
only q, the facet filter values and page. -/
theorem c10_facets_not_serialized :
    (∀ (p : Params) (m : FacetsMode),
      serializeParams { p with facetsMode := m } = serializeParams p)
    ∧ serializeParams { pC5 with facetsMode := .allF } =
        [("q", ["test"]), ("tag", ["tag1", "tag2"]), ("page", ["2"])] :=
  ⟨fun _ _ => rfl, rfl⟩
